import Mathlib

/-!
Shallow embedding of the multi-chain custodial wallet engine of the `otaku`
repository (the CDP wallet router).  The repository contains two variants of
the router:

* `src/unnamed/part_000` — balances fetched per network over Alchemy JSON-RPC
  (`eth_getBalance` / `alchemy_getTokenBalances`), raw balances converted with
  `safeBalanceToNumber` (big-integer string slicing), and a `/wallet/send`
  handler with a viem local-signing fallback;
* `src/packages/server/src/api/cdp/index.ts` — balances fetched with the CDP
  SDK `listTokenBalances`, an `isNftContract` probe filtering NFT contracts,
  and a `/wallet/send` handler without a fallback.

Both variants are embedded below (suffix `A` for the `part_000` variant and
`B` for the `index.ts` variant).  External services (custody, indexer, price
oracles) are modelled as environment records holding the outcome of each
outbound call; a thrown exception is an `Except.error` or `none` outcome.
JavaScript numbers are modelled as exact rationals, which is faithful for the
membership / field-value claims proved here; the one claim about numeric
precision (C4) is proved about the decimal string built by big-integer
arithmetic before `parseFloat` consumes it.
-/

namespace Otaku

/-! ### JavaScript-style helpers -/

/-- Model of the JS `x || default` idiom on an optional string (`undefined`
and the empty string are falsy). -/
def jsOrS : Option String → String → String
  | none, d => d
  | some s, d => if s = "" then d else s

/-- Model of the JS `n || default` idiom on a number known to be a
nonnegative integer (`0` is falsy). -/
def jsOrNat (n d : Nat) : Nat :=
  if n = 0 then d else n

/-- Value of a decimal digit character, if it is one. -/
def digitVal (c : Char) : Option Nat :=
  if c.isDigit then some (c.toNat - 48) else none

/-- Value of a hexadecimal digit character, if it is one. -/
def hexVal (c : Char) : Option Nat :=
  if c.isDigit then some (c.toNat - 48)
  else if 'a' ≤ c ∧ c ≤ 'f' then some (c.toNat - 87)
  else if 'A' ≤ c ∧ c ≤ 'F' then some (c.toNat - 55)
  else none

/-- Parse a list of decimal digit characters (JS `BigInt` on a decimal
string; the empty string parses to `0`, as `BigInt('')` does). -/
def parseDecimalNat (cs : List Char) : Option Nat :=
  cs.foldl
    (fun acc c =>
      match acc, digitVal c with
      | some a, some v => some (10 * a + v)
      | _, _ => none)
    (some 0)

/-- Parse a list of hexadecimal digit characters. -/
def parseHexNat (cs : List Char) : Option Nat :=
  cs.foldl
    (fun acc c =>
      match acc, hexVal c with
      | some a, some v => some (16 * a + v)
      | _, _ => none)
    (some 0)

/-- Model of JS `BigInt(s)` on the string shapes the router feeds it: plain
decimal strings and `0x`-prefixed hexadecimal strings.  `none` models the
`BigInt` constructor throwing on a malformed string. -/
def parseBigInt (s : String) : Option Nat :=
  match s.data with
  | '0' :: 'x' :: rest => parseHexNat rest
  | cs => parseDecimalNat cs

/-- Model of the JS `token.startsWith('0x')` test used to distinguish a
contract address from a native-asset / well-known-symbol identifier. -/
def isHexAddress (s : String) : Bool :=
  match s.data with
  | '0' :: 'x' :: _ => true
  | _ => false

/-! ### `safeBalanceToNumber` (src/unnamed/part_000, lines 211-232)

The source converts `BigInt(balanceHex)` to its decimal string
(`balance.toString()`), places the decimal point by string slicing
(`'0'.repeat`, `slice`), and only then calls `parseFloat` on the resulting
decimal string.  We model the decimal string as its list of digits and give
the exact rational value the constructed string denotes. -/

/-- Big-endian decimal digit list of `n`, i.e. the digits of
`BigInt(n).toString()` (the string `"0"` for zero). -/
def decimalDigits (n : Nat) : List Nat :=
  if n = 0 then [0] else (Nat.digits 10 n).reverse

/-- Value denoted by a big-endian digit list (how `parseFloat` reads the
digits before the decimal point). -/
def digitsVal (l : List Nat) : Nat :=
  l.foldl (fun a d => 10 * a + d) 0

/-- The integer-part and fractional-part digit lists of the decimal string
built by `safeBalanceToNumber`: with `decimalPoint = balanceStr.length -
decimals`, the `decimalPoint <= 0` branch produces
`"0." + '0'.repeat(-decimalPoint) + balanceStr` and the other branch
produces `balanceStr.slice(0, decimalPoint) + "." +
balanceStr.slice(decimalPoint)`. -/
def safeBalanceSplit (n decimals : Nat) : List Nat × List Nat :=
  if (decimalDigits n).length ≤ decimals then
    ([0], List.replicate (decimals - (decimalDigits n).length) 0 ++ decimalDigits n)
  else
    ((decimalDigits n).take ((decimalDigits n).length - decimals),
     (decimalDigits n).drop ((decimalDigits n).length - decimals))

/-- Exact rational value of the decimal string `intPart ++ "." ++ fracPart`
built by `safeBalanceToNumber` (the value `parseFloat` is applied to). -/
def safeBalanceValue (n decimals : Nat) : ℚ :=
  (digitsVal (safeBalanceSplit n decimals).1 : ℚ)
    + (digitsVal (safeBalanceSplit n decimals).2 : ℚ)
      / 10 ^ (safeBalanceSplit n decimals).2.length

/-- `safeBalanceToNumber(balanceHex, decimals)`: parse the balance with
`BigInt` (a throw is caught and yields `0`), then place the decimal point by
string arithmetic.  The result is the exact value of the constructed decimal
string. -/
def safeBalanceToNumber (balanceHex : String) (decimals : Nat) : ℚ :=
  match parseBigInt balanceHex with
  | none => 0
  | some n => safeBalanceValue n decimals

/-! ### The floating-point conversion of the variant-B balances handler
(src/packages/server/src/api/cdp/index.ts, lines 256-257)

Variant B converts raw amounts with `const amountNum = parseFloat(amountRaw)
/ Math.pow(10, decimals)` — plain IEEE-754 binary64 arithmetic, not the
big-integer/string path of `safeBalanceToNumber`.  The `parseFloat` step on
an integer decimal string is modelled exactly below (round to nearest, ties
to even); this step alone already loses the low-order digits of every raw
balance beyond `2 ^ 53`. -/

/-- The IEEE-754 binary64 value nearest a nonnegative integer (round to
nearest, ties to even), for integers below the binary64 overflow threshold:
integers up to `2 ^ 53` are represented exactly; a larger integer is rounded
to a multiple of its binade's unit in the last place, `2 ^ (log2 n - 52)`.
This is exactly the value JS `parseFloat` yields on the decimal rendering of
a raw integer balance (any uint256 is far below the overflow threshold). -/
def doubleRoundNat (n : Nat) : Nat :=
  if n < 2 ^ 53 then n
  else
    let k := n.log2 - 52
    let q := n / 2 ^ k
    let r := n % 2 ^ k
    (if r < 2 ^ (k - 1) then q
     else if 2 ^ (k - 1) < r then q + 1
     else if q % 2 = 0 then q else q + 1) * 2 ^ k

/-- The variant-B conversion `parseFloat(amountRaw) / Math.pow(10,
decimals)`: `parseFloat` of the integer decimal string is `doubleRoundNat`;
the power and the quotient are then taken exactly over ℚ, which agrees with
the JS computation whenever — as at the counterexample input, where
`Math.pow(10, 18) = 10 ^ 18` and the quotient `1` are exactly representable
binary64 values — those two steps round to themselves. -/
def amountNumIndexTs (raw decimals : Nat) : ℚ :=
  (doubleRoundNat raw : ℚ) / 10 ^ decimals

/-! ### Shared data model: response envelope, networks, tokens, oracles -/

/-- Response envelope produced by `sendSuccess` / `sendError`
(`{success, data?, error: {code, message}}`), with the HTTP status. -/
inductive ApiResponse (α : Type) where
  | success : α → ApiResponse α
  | error : Nat → String → String → ApiResponse α
deriving DecidableEq

/-- The three registered networks (`const networks = ['base', 'ethereum',
'polygon']`). -/
inductive Network where
  | base
  | ethereum
  | polygon
deriving DecidableEq

/-- The network's string identifier. -/
def Network.key : Network → String
  | .base => "base"
  | .ethereum => "ethereum"
  | .polygon => "polygon"

/-- `platformMap`: CoinGecko platform key per network. -/
def platformMap : Network → String
  | .base => "base"
  | .ethereum => "ethereum"
  | .polygon => "polygon-pos"

/-- Iteration order of the balance / history fan-out loops. -/
def allNetworks : List Network := [.base, .ethereum, .polygon]

/-- `nativeTokenInfo` entry: symbol, display name and CoinGecko id of a
network's native asset. -/
structure NativeInfo where
  symbol : String
  name : String
  coingeckoId : String
deriving DecidableEq

/-- `nativeTokenInfo` map of the `part_000` tokens handler. -/
def nativeTokenInfo : Network → NativeInfo
  | .base => ⟨"ETH", "Ethereum", "ethereum"⟩
  | .ethereum => ⟨"ETH", "Ethereum", "ethereum"⟩
  | .polygon => ⟨"MATIC", "Polygon", "matic-network"⟩

/-- A token entry pushed onto `allTokens` by either balances handler.  The
JS object also carries `balance` / `balanceFormatted` decimal renderings of
`balance`; we keep the numeric value, on which the renderings are a pure
function. -/
structure Token where
  symbol : String
  name : String
  balance : ℚ
  usdValue : ℚ
  usdPrice : ℚ
  contractAddress : Option String
  chain : String
  decimals : Nat
  icon : Option String
deriving DecidableEq

/-- Successful result of `getTokenInfo` (CoinGecko, the primary
metadata-and-price oracle).  `price` is `market_data?.current_price?.usd ||
0`; `decimals` is `detail_platforms?.[platform]?.decimal_place || 18`. -/
structure CgInfo where
  price : ℚ
  icon : Option String
  name : Option String
  symbol : Option String
  decimals : Nat
deriving DecidableEq

/-- Successful result of `getTokenInfoFromDexScreener` (the secondary
liquidity-pool oracle).  `price` is `parseFloat(pair.priceUsd) ||
undefined`, so a zero price is already `none` at the source; we keep the
option and re-apply the use-site truthiness test. -/
structure DexInfo where
  price : Option ℚ
  name : Option String
  symbol : Option String
deriving DecidableEq

/-- Outcomes of the three price-oracle calls.  A `none` result of
`getTokenInfo` / `getDex` covers every failure in the source: missing API
key, non-OK HTTP status, thrown fetch, or (for DexScreener) no pair on the
requested chain.  `getNativeTokenPrice` returns `0` on any failure. -/
structure OracleEnv where
  getTokenInfo : String → String → Option CgInfo
  getDex : String → String → Option DexInfo
  nativePrice : String → ℚ

/-- The use-site truthiness test `if (dexInfo?.price)` applied to a
DexScreener outcome: a usable secondary-oracle price, if any. -/
def dexTruthyPrice : Option DexInfo → Option ℚ
  | none => none
  | some dx =>
    match dx.price with
    | none => none
    | some p => if p = 0 then none else some p

/-! ### Balances, variant A (src/unnamed/part_000, lines 238-456)

Per network the handler fetches the native balance over `eth_getBalance`,
then the ERC-20 balance list over `alchemy_getTokenBalances`, converting
each raw amount with `safeBalanceToNumber`.  There is no NFT filtering in
this variant, and a contract token for which CoinGecko returns `null` and
DexScreener yields no usable price is skipped (`continue`) rather than
pushed with a zero price. -/

/-- One entry of `result.tokenBalances` from `alchemy_getTokenBalances`. -/
structure RawTokenBalance where
  contractAddress : String
  tokenBalance : Option String
deriving DecidableEq

/-- Outcome of one network's block of the variant-A loop: `fail` models any
exception caught by the per-network `catch`; on success the native balance
is known and the ERC-20 list fetch may still fail (`!tokensResponse.ok` or
an RPC error object, both of which `continue` after the native token has
been pushed). -/
inductive NetFetchA where
  | fail
  | ok (nativeBalance : Nat) (erc20 : Except Unit (List RawTokenBalance))

/-- Processing of one ERC-20 entry (variant A, lines 356-427).  `none`
models every `continue` / caught-exception path: missing or malformed
`tokenBalance`, zero balance, and the both-oracles-failed path. -/
def processTokenA (oracle : OracleEnv) (net : Network) (tb : RawTokenBalance) :
    Option Token :=
  match tb.tokenBalance with
  | none => none
  | some hexStr =>
    match parseBigInt hexStr with
    | none => none
    | some bal =>
      if bal = 0 then none
      else
        match oracle.getTokenInfo tb.contractAddress (platformMap net) with
        | some info =>
          let decs := jsOrNat info.decimals 18
          let amountNum := safeBalanceValue bal decs
          some
            { symbol := jsOrS info.symbol "UNKNOWN"
              name := jsOrS info.name "Unknown Token"
              balance := amountNum
              usdValue := amountNum * info.price
              usdPrice := info.price
              contractAddress := some tb.contractAddress
              chain := net.key
              decimals := decs
              icon := info.icon }
        | none =>
          match oracle.getDex tb.contractAddress net.key with
          | none => none
          | some dx =>
            match dx.price with
            | none => none
            | some p =>
              if p = 0 then none
              else
                let amountNum := safeBalanceValue bal 18
                some
                  { symbol := jsOrS (dx.symbol.map String.toUpper) "UNKNOWN"
                    name := jsOrS dx.name "Unknown Token"
                    balance := amountNum
                    usdValue := amountNum * p
                    usdPrice := p
                    contractAddress := some tb.contractAddress
                    chain := net.key
                    decimals := 18
                    icon := none }

/-- The native-asset token pushed when `nativeBalance > 0n` (variant A). -/
def nativeTokenA (oracle : OracleEnv) (net : Network) (bal : Nat) : Token :=
  { symbol := (nativeTokenInfo net).symbol
    name := (nativeTokenInfo net).name
    balance := safeBalanceValue bal 18
    usdValue := safeBalanceValue bal 18 * oracle.nativePrice (nativeTokenInfo net).coingeckoId
    usdPrice := oracle.nativePrice (nativeTokenInfo net).coingeckoId
    contractAddress := none
    chain := net.key
    decimals := 18
    icon := none }

/-- Tokens contributed by one network in variant A. -/
def networkTokensA (oracle : OracleEnv) (net : Network) : NetFetchA → List Token
  | .fail => []
  | .ok nativeBalance erc20 =>
    (if 0 < nativeBalance then [nativeTokenA oracle net nativeBalance] else [])
      ++ match erc20 with
         | .error _ => []
         | .ok tbs => tbs.filterMap (processTokenA oracle net)

/-- Environment of one `GET /wallet/tokens/:name` call, variant A. -/
structure BalancesEnvA where
  hasCdpClient : Bool
  account : Except Unit String
  alchemyKey : Option String
  oracle : OracleEnv
  fetch : Network → NetFetchA

/-- Success payload of the tokens endpoint. -/
structure BalancesPayload where
  tokens : List Token
  totalUsdValue : ℚ
  address : String
deriving DecidableEq

/-- The `GET /wallet/tokens/:name` handler, variant A.  The source
accumulates `totalUsdValue += usdValue` exactly once per pushed token (the
`isNaN` guards never fire on the rational model), so the total is the sum of
the returned tokens' `usdValue` fields. -/
def getBalancesA (env : BalancesEnvA) (name : String) : ApiResponse BalancesPayload :=
  if name = "" then .error 400 "INVALID_REQUEST" "Name is required"
  else if env.hasCdpClient = false then
    .error 503 "SERVICE_UNAVAILABLE" "CDP client not initialized."
  else
    match env.account with
    | .error _ => .error 500 "FETCH_TOKENS_FAILED" "Failed to fetch token balances"
    | .ok address =>
      match env.alchemyKey with
      | none => .error 503 "SERVICE_UNAVAILABLE" "Alchemy API key not configured"
      | some _ =>
        let tokens := (allNetworks.map fun n => networkTokensA env.oracle n (env.fetch n)).flatten
        .success ⟨tokens, (tokens.map Token.usdValue).sum, address⟩

/-! ### The `isNftContract` probe (src/packages/server/src/api/cdp/index.ts,
lines 124-156) and balances, variant B (lines 208-320)

Variant B fetches each network's balance list with the CDP SDK
(`account.listTokenBalances`), probes each contract address against the
Alchemy `getNFTsForContract` endpoint and skips NFT contracts, and pushes a
token with `usdPrice = 0` when both price oracles fail. -/

/-- Outcome of the probe's `fetch` call: a thrown exception, a non-OK HTTP
status, or an OK response whose body may or may not carry an `nfts` array
(of the given length). -/
inductive ProbeOutcome where
  | throw
  | notOk
  | ok (nfts : Option Nat)
deriving DecidableEq

/-- Environment of the probe: the `ALCHEMY_API_KEY` and the outcome of the
`getNFTsForContract` request per `(network, contractAddress)`. -/
structure ProbeEnv where
  alchemyKey : Option String
  request : String → String → ProbeOutcome

/-- Domain of the probe's `nftApiMap` endpoint table. -/
def nftApiNetworks : List String := ["base", "ethereum", "polygon"]

/-- `isNftContract(contractAddress, network)`: `false` when the API key is
missing, the network has no endpoint in `nftApiMap`, the response is not OK,
or the request throws; on an OK response, `data.nfts && data.nfts.length >
0`. -/
def isNftContract (env : ProbeEnv) (contractAddress network : String) : Bool :=
  match env.alchemyKey with
  | none => false
  | some _ =>
    if network ∈ nftApiNetworks then
      match env.request network contractAddress with
      | .throw => false
      | .notOk => false
      | .ok nfts =>
        match nfts with
        | none => false
        | some len => decide (0 < len)
    else false

/-- One entry of the CDP SDK `listTokenBalances` response.  `none` fields
model absent optional chaining results; the raw amount is kept as the
integer the SDK's `amount.amount.toString()` renders (`none` models the
`|| '0'` default), and `decimals = 0` models a missing `decimals` field
(the source applies `|| 18`). -/
structure CdpBalanceEntry where
  symbol : Option String
  name : Option String
  contractAddress : Option String
  amount : Option Nat
  decimals : Nat
deriving DecidableEq

/-- The price / icon / display-name resolution block of one variant-B entry
(`usdPrice`, `icon`, `tokenName` in the source): CoinGecko first, then the
DexScreener truthy-price fallback, else a zero price; the display name stays
`balance?.token?.name || symbol` unless CoinGecko returned a truthy name. -/
def resolveB (oracle : OracleEnv) (net : Network) (e : CdpBalanceEntry) :
    ℚ × Option String × String :=
  match e.contractAddress with
  | none => ((0 : ℚ), (none : Option String), jsOrS e.name (jsOrS e.symbol "UNKNOWN"))
  | some c =>
    match oracle.getTokenInfo c (platformMap net) with
    | some info =>
      (info.price, info.icon,
        match info.name with
        | some s => if s = "" then jsOrS e.name (jsOrS e.symbol "UNKNOWN") else s
        | none => jsOrS e.name (jsOrS e.symbol "UNKNOWN"))
    | none =>
      match dexTruthyPrice (oracle.getDex c net.key) with
      | some p => (p, none, jsOrS e.name (jsOrS e.symbol "UNKNOWN"))
      | none => (0, none, jsOrS e.name (jsOrS e.symbol "UNKNOWN"))

/-- Processing of one balance entry (variant B, lines 244-294).  `none`
models only the NFT-contract skip; every other entry is pushed, with
`usdPrice = 0` (hence `usdValue = 0`) when both oracles fail.  The
`parseFloat(amountRaw) / Math.pow(10, decimals)` conversion is modelled as
the exact rational quotient. -/
def processEntryB (probe : ProbeEnv) (oracle : OracleEnv) (net : Network)
    (e : CdpBalanceEntry) : Option Token :=
  if (match e.contractAddress with
      | some c => isNftContract probe c net.key
      | none => false) then
    none
  else
    some
      { symbol := jsOrS e.symbol "UNKNOWN"
        name := (resolveB oracle net e).2.2
        balance := (e.amount.getD 0 : ℚ) / 10 ^ jsOrNat e.decimals 18
        usdValue := ((e.amount.getD 0 : ℚ) / 10 ^ jsOrNat e.decimals 18)
          * (resolveB oracle net e).1
        usdPrice := (resolveB oracle net e).1
        contractAddress := e.contractAddress
        chain := net.key
        decimals := jsOrNat e.decimals 18
        icon := (resolveB oracle net e).2.1 }

/-- Tokens contributed by one network in variant B (`continue` on a thrown
`listTokenBalances`). -/
def networkTokensB (probe : ProbeEnv) (oracle : OracleEnv) (net : Network) :
    Except Unit (List CdpBalanceEntry) → List Token
  | .error _ => []
  | .ok entries => entries.filterMap (processEntryB probe oracle net)

/-- Environment of one `GET /wallet/tokens/:name` call, variant B. -/
structure BalancesEnvB where
  hasCdpClient : Bool
  account : Except Unit String
  probe : ProbeEnv
  oracle : OracleEnv
  fetch : Network → Except Unit (List CdpBalanceEntry)

/-- The `GET /wallet/tokens/:name` handler, variant B (no top-level Alchemy
key check; the probe handles a missing key internally). -/
def getBalancesB (env : BalancesEnvB) (name : String) : ApiResponse BalancesPayload :=
  if name = "" then .error 400 "INVALID_REQUEST" "Name is required"
  else if env.hasCdpClient = false then
    .error 503 "SERVICE_UNAVAILABLE" "CDP client not initialized."
  else
    match env.account with
    | .error _ => .error 500 "FETCH_TOKENS_FAILED" "Failed to fetch token balances"
    | .ok address =>
      let tokens :=
        (allNetworks.map fun n => networkTokensB env.probe env.oracle n (env.fetch n)).flatten
      .success ⟨tokens, (tokens.map Token.usdValue).sum, address⟩

/-! ### `POST /wallet/send`, variant A (src/unnamed/part_000, lines 670-826)

The handler first attempts the transfer through the CDP SDK
(`networkAccount.transfer`); on any thrown exception the `catch` block runs
the viem local-signing fallback (native value transfer when the token
identifier is not a `0x` contract address, otherwise an ERC-20 `transfer`
call).  The success payload reports `method: cdpSuccess ? 'cdp-sdk' :
'viem-fallback'`. -/

/-- Request body of `POST /wallet/send`. -/
structure SendRequest where
  name : String
  network : String
  toAddress : String
  token : String
  amount : String
deriving DecidableEq

/-- Success payload of `POST /wallet/send`. -/
structure SendPayload where
  transactionHash : String
  fromAddress : String
  toAddress : String
  amount : String
  token : String
  network : String
  method : String
deriving DecidableEq

/-- Result of the primary (CDP SDK) attempt: `error` models any exception
thrown inside the first `try` (account resolution, `useNetwork`,
`BigInt(amount)`, or `transfer` itself); on a normal return,
`transactionHash` is `result.transactionHash`. -/
structure PrimaryOutcome where
  address : String
  transactionHash : Option String

/-- Domain of the fallback's `chainMap`. -/
def chainMapNetworks : List String :=
  ["base", "base-sepolia", "ethereum", "ethereum-sepolia", "polygon"]

/-- Environment of one `POST /wallet/send` call. -/
structure SendEnvA where
  hasCdpClient : Bool
  primary : Except Unit PrimaryOutcome
  fallbackAccount : Except Unit String
  alchemyKey : Option String
  viemSendNative : Except Unit String
  viemWriteErc20 : Except Unit String

/-- The viem fallback run in the `catch` block: throws (hence `SEND_FAILED`)
on an unsupported network, a failed account resolution, a missing Alchemy
key, a malformed amount (`BigInt(amount)`), or a failed viem call; otherwise
yields the sender address and the transaction hash. -/
def viemFallback (env : SendEnvA) (req : SendRequest) : Except Unit (String × String) :=
  if req.network ∈ chainMapNetworks then
    match env.fallbackAccount with
    | .error _ => .error ()
    | .ok fromAddress =>
      match env.alchemyKey with
      | none => .error ()
      | some _ =>
        match parseBigInt req.amount with
        | none => .error ()
        | some _ =>
          if isHexAddress req.token then
            match env.viemWriteErc20 with
            | .error _ => .error ()
            | .ok h => .ok (fromAddress, h)
          else
            match env.viemSendNative with
            | .error _ => .error ()
            | .ok h => .ok (fromAddress, h)
  else .error ()

/-- The `POST /wallet/send` handler, variant A.  A falsy
`result.transactionHash` from the primary path leaves `transactionHash`
unset without entering the `catch`, so the trailing `if (!transactionHash)
throw` produces `SEND_FAILED` without attempting the fallback. -/
def sendHandlerA (env : SendEnvA) (req : SendRequest) : ApiResponse SendPayload :=
  if req.name = "" ∨ req.network = "" ∨ req.toAddress = "" ∨ req.token = "" ∨ req.amount = "" then
    .error 400 "INVALID_REQUEST" "Missing required fields: name, network, to, token, amount"
  else if env.hasCdpClient = false then
    .error 503 "SERVICE_UNAVAILABLE" "CDP client not initialized."
  else
    match env.primary with
    | .ok pr =>
      match pr.transactionHash with
      | some h =>
        if h = "" then .error 500 "SEND_FAILED" "Failed to send tokens"
        else .success ⟨h, pr.address, req.toAddress, req.amount, req.token, req.network, "cdp-sdk"⟩
      | none => .error 500 "SEND_FAILED" "Failed to send tokens"
    | .error _ =>
      match viemFallback env req with
      | .ok fh =>
        if fh.2 = "" then .error 500 "SEND_FAILED" "Failed to send tokens"
        else .success ⟨fh.2, fh.1, req.toAddress, req.amount, req.token, req.network, "viem-fallback"⟩
      | .error _ => .error 500 "SEND_FAILED" "Failed to send tokens"

/-- The primary path fully succeeded: it returned a truthy transaction
hash. -/
def primarySucceeds (env : SendEnvA) : Prop :=
  ∃ pr h, env.primary = .ok pr ∧ pr.transactionHash = some h ∧ h ≠ ""

/-- The fallback path fully succeeded: it ran to completion with a truthy
transaction hash. -/
def fallbackSucceeds (env : SendEnvA) (req : SendRequest) : Prop :=
  ∃ a h, viemFallback env req = .ok (a, h) ∧ h ≠ ""

/-! ### `GET /wallet/history/:name` (identical in both variants;
src/unnamed/part_000, lines 560-664)

Per network the handler posts one `alchemy_getAssetTransfers` request whose
params carry the resolved address as `fromAddress` (and no `toAddress`),
maps the returned transfers, and finally sorts everything by `timestamp`
descending.  JS `Array.prototype.sort` with the comparator
`(a, b) => b.timestamp - a.timestamp` is modelled by insertion sort under
the reflexive total relation `tsDesc`; the claims proved below depend only
on sortedness and on the output being a permutation of the input. -/

/-- Params object of the `alchemy_getAssetTransfers` request. -/
structure AssetTransferParams where
  fromBlock : String
  toBlock : String
  fromAddress : String
  category : List String
  withMetadata : Bool
  maxCount : String
deriving DecidableEq

/-- The params the history handler builds: the wallet address appears only
as `fromAddress`; the request has no `toAddress` filter at all. -/
def historyParams (address : String) : AssetTransferParams :=
  { fromBlock := "0x0"
    toBlock := "latest"
    fromAddress := address
    category := ["external", "erc20", "erc721", "erc1155"]
    withMetadata := true
    maxCount := "0x32" }

/-- One transfer of the indexer response (`data.result.transfers`).  The
source field `from` is spelled `fromAddress` here because `from` is a Lean
keyword. -/
structure RawTransfer where
  hash : String
  fromAddress : String
  toAddress : String
  value : Option ℚ
  asset : Option String
  category : String
  blockTimestamp : Option Int
  blockNum : String
deriving DecidableEq

/-- One entry pushed onto `allTransactions`. -/
structure Txn where
  chain : String
  hash : String
  fromAddress : String
  toAddress : String
  value : ℚ
  asset : String
  category : String
  timestamp : Int
  blockNum : String
  explorerUrl : String
deriving DecidableEq

/-- Block-explorer base URL per network. -/
def explorerOf : Network → String
  | .base => "https://basescan.org"
  | .ethereum => "https://etherscan.io"
  | .polygon => "https://polygonscan.com"

/-- Mapping of one raw transfer to a history entry.  `timestamp` falls back
to `Date.now()` (the `now` argument) when the metadata carries no block
timestamp. -/
def toTxn (net : Network) (now : Int) (tx : RawTransfer) : Txn :=
  { chain := net.key
    hash := tx.hash
    fromAddress := tx.fromAddress
    toAddress := tx.toAddress
    value := tx.value.getD 0
    asset := jsOrS tx.asset "ETH"
    category := tx.category
    timestamp := tx.blockTimestamp.getD now
    blockNum := tx.blockNum
    explorerUrl := explorerOf net ++ "/tx/" ++ tx.hash }

/-- Descending-timestamp ordering used by the final sort. -/
def tsDesc (a b : Txn) : Prop := b.timestamp ≤ a.timestamp

instance : DecidableRel tsDesc := fun a b =>
  inferInstanceAs (Decidable (b.timestamp ≤ a.timestamp))

instance : IsTotal Txn tsDesc := ⟨fun a b => le_total b.timestamp a.timestamp⟩

instance : IsTrans Txn tsDesc := ⟨fun _ _ _ h1 h2 => le_trans h2 h1⟩

/-- Environment of one `GET /wallet/history/:name` call.  `indexer` is the
outcome of the `alchemy_getAssetTransfers` request per network and params
(`error` models a thrown fetch or a non-OK status, both of which
`continue`). -/
structure HistoryEnv where
  hasCdpClient : Bool
  alchemyKey : Option String
  account : Except Unit String
  now : Int
  indexer : Network → AssetTransferParams → Except Unit (List RawTransfer)

/-- Success payload of the history endpoint. -/
structure HistoryPayload where
  transactions : List Txn
  address : String
deriving DecidableEq

/-- History entries contributed by one network. -/
def networkTxns (env : HistoryEnv) (address : String) (net : Network) : List Txn :=
  match env.indexer net (historyParams address) with
  | .error _ => []
  | .ok transfers => transfers.map (toTxn net env.now)

/-- The `GET /wallet/history/:name` handler. -/
def getHistory (env : HistoryEnv) (name : String) : ApiResponse HistoryPayload :=
  if name = "" then .error 400 "INVALID_REQUEST" "Name is required"
  else if env.hasCdpClient = false then
    .error 503 "SERVICE_UNAVAILABLE" "CDP client not initialized."
  else
    match env.alchemyKey with
    | none => .error 503 "SERVICE_UNAVAILABLE" "Alchemy API key not configured"
    | some _ =>
      match env.account with
      | .error _ => .error 500 "FETCH_HISTORY_FAILED" "Failed to fetch transaction history"
      | .ok address =>
        let sorted :=
          List.insertionSort tsDesc ((allNetworks.map (networkTxns env address)).flatten)
        .success ⟨sorted, address⟩

/-- Modelled from the spec: the Alchemy asset-transfers endpoint is an
external indexer; per the request contract it returns (a page of) the
ledger's transfers matching the params' `fromAddress` filter, capped at
`maxCount` entries.  No other filter applies because the handler's params
carry none. -/
def alchemyGetAssetTransfers (ledger : List RawTransfer) (p : AssetTransferParams) :
    List RawTransfer :=
  ((ledger.filter fun t => decide (t.fromAddress = p.fromAddress)).take
    ((parseBigInt p.maxCount).getD 0))

/-! ### `POST /wallet` (account provisioning; both variants, identical)

The handler validates the name, requires the CDP client, and delegates to
the custody service's `getOrCreateAccount`. -/

/-- The custody service's name-to-address table. -/
abbrev CustodyState := List (String × String)

/-- Modelled from the spec: `client.evm.getOrCreateAccount({name})` lives in
the external CDP SDK; per the spec's provisioning contract it resolves a
logical account name to a custody-managed address, creating one (`fresh`)
on first use and returning the existing address thereafter. -/
def getOrCreateAccount (st : CustodyState) (fresh name : String) : String × CustodyState :=
  match st.lookup name with
  | some a => (a, st)
  | none => (fresh, (name, fresh) :: st)

/-- Success payload of `POST /wallet`. -/
structure WalletPayload where
  address : String
  accountName : String
deriving DecidableEq

/-- The `POST /wallet` handler: validation, client guard, then
`getOrCreateAccount`. -/
def walletHandler (hasCdpClient : Bool) (st : CustodyState) (fresh name : String) :
    ApiResponse WalletPayload × CustodyState :=
  if name = "" then
    (.error 400 "INVALID_REQUEST" "Name is required and must be a string", st)
  else if hasCdpClient = false then
    (.error 503 "SERVICE_UNAVAILABLE" "CDP client not initialized. Check environment variables.",
      st)
  else
    ((.success ⟨(getOrCreateAccount st fresh name).1, name⟩),
      (getOrCreateAccount st fresh name).2)

/-! ### Theorems -/

theorem digitsVal_foldl (l : List Nat) (a : Nat) :
    l.foldl (fun x d => 10 * x + d) a = a * 10 ^ l.length + digitsVal l := by
  induction l generalizing a with
  | nil => simp [digitsVal]
  | cons d t ih =>
    simp only [List.foldl_cons, digitsVal, List.length_cons]
    rw [ih (10 * a + d), ih (10 * 0 + d)]
    ring

theorem digitsVal_append (l₁ l₂ : List Nat) :
    digitsVal (l₁ ++ l₂) = digitsVal l₁ * 10 ^ l₂.length + digitsVal l₂ := by
  unfold digitsVal
  rw [List.foldl_append]
  exact digitsVal_foldl l₂ _

theorem digitsVal_replicate_zero (k : Nat) :
    digitsVal (List.replicate k 0) = 0 := by
  induction k with
  | zero => rfl
  | succ m ih =>
    simp only [List.replicate_succ, digitsVal, List.foldl_cons]
    simpa [digitsVal] using ih

theorem digitsVal_reverse (l : List Nat) :
    digitsVal l.reverse = Nat.ofDigits 10 l := by
  induction l with
  | nil => rfl
  | cons d t ih =>
    rw [List.reverse_cons, digitsVal_append, Nat.ofDigits_cons, ih]
    simp [digitsVal]
    ring

theorem digitsVal_decimalDigits (n : Nat) :
    digitsVal (decimalDigits n) = n := by
  unfold decimalDigits
  split
  · simp [digitsVal]; omega
  · rw [digitsVal_reverse, Nat.ofDigits_digits]

/-- Exactness of the big-integer string conversion: the decimal string built
by `safeBalanceToNumber` denotes exactly `n / 10 ^ decimals`, with no
rounding in any intermediate step. -/
theorem safeBalanceValue_eq (n decimals : Nat) :
    safeBalanceValue n decimals = (n : ℚ) / 10 ^ decimals := by
  have hval : digitsVal (decimalDigits n) = n := digitsVal_decimalDigits n
  unfold safeBalanceValue
  by_cases h : (decimalDigits n).length ≤ decimals
  · have hsp : safeBalanceSplit n decimals
        = ([0], List.replicate (decimals - (decimalDigits n).length) 0 ++ decimalDigits n) := by
      simp [safeBalanceSplit, h]
    rw [hsp]
    have hlen : (List.replicate (decimals - (decimalDigits n).length) 0
        ++ decimalDigits n).length = decimals := by
      simp [List.length_append, List.length_replicate]; omega
    have hv2 : digitsVal (List.replicate (decimals - (decimalDigits n).length) 0
        ++ decimalDigits n) = n := by
      rw [digitsVal_append, digitsVal_replicate_zero, hval]
      simp
    simp only [hlen, hv2]
    norm_num [digitsVal]
  · have hsp : safeBalanceSplit n decimals
        = ((decimalDigits n).take ((decimalDigits n).length - decimals),
           (decimalDigits n).drop ((decimalDigits n).length - decimals)) := by
      simp [safeBalanceSplit, h]
    rw [hsp]
    have hd : ((decimalDigits n).drop ((decimalDigits n).length - decimals)).length
        = decimals := by
      simp [List.length_drop]; omega
    have happ := digitsVal_append
      ((decimalDigits n).take ((decimalDigits n).length - decimals))
      ((decimalDigits n).drop ((decimalDigits n).length - decimals))
    rw [List.take_append_drop, hval, hd] at happ
    have hsplit : digitsVal ((decimalDigits n).take ((decimalDigits n).length - decimals))
          * 10 ^ decimals
        + digitsVal ((decimalDigits n).drop ((decimalDigits n).length - decimals)) = n :=
      happ.symm
    simp only [hd]
    have h10 : (10 : ℚ) ^ decimals ≠ 0 := by positivity
    have hq : (digitsVal ((decimalDigits n).take ((decimalDigits n).length - decimals)) : ℚ)
          * 10 ^ decimals
        + (digitsVal ((decimalDigits n).drop ((decimalDigits n).length - decimals)) : ℚ)
        = (n : ℚ) := by
      exact_mod_cast congrArg (fun x : ℕ => (x : ℚ)) hsplit
    field_simp
    linarith [hq]

/-- C4 counterexample: at the conversion site of the variant-B handler
(index.ts lines 256-257, `parseFloat(amountRaw) / Math.pow(10, decimals)`),
the raw balance "1000000000000000001" with 18 decimals converts to exactly
1 — `parseFloat` rounds the integer to the nearest binary64 value
`10 ^ 18`, losing the trailing digit — although the exact value of that
balance is not 1.  The claim that every conversion site works by
big-integer/string arithmetic with no floating-point precision loss is
therefore false for this variant. -/
theorem C4_counterexample :
    amountNumIndexTs 1000000000000000001 18 = 1 ∧
    (1000000000000000001 : ℚ) / 10 ^ 18 ≠ 1 := by
  have hlog : Nat.log2 1000000000000000001 = 59 := by
    rw [Nat.log2_eq_log_two]
    exact Nat.log_eq_of_pow_le_of_lt_pow (by norm_num) (by norm_num)
  have hdr : doubleRoundNat 1000000000000000001 = 1000000000000000000 := by
    unfold doubleRoundNat
    rw [hlog]
    norm_num
  constructor
  · unfold amountNumIndexTs
    rw [hdr]
    norm_num
  · norm_num

/-- C4 amended: the variant-A conversion (`safeBalanceToNumber`,
src/unnamed/part_000) is performed by big-integer/string arithmetic before
any decimal point is introduced, so the constructed decimal string denotes
exactly `raw / 10 ^ decimals` for every raw balance and decimals value — in
particular "1000000000000000000" with 18 decimals converts to exactly 1,
with no floating drift — while the variant-B conversion site (index.ts
lines 256-257) is plain floating point and loses precision for raw balances
beyond `2 ^ 53`: "1000000000000000001" with 18 decimals also converts to
exactly 1 there, though its exact value differs from 1. -/
theorem C4_bigint_precision :
    (∀ n decimals : Nat, safeBalanceValue n decimals = (n : ℚ) / 10 ^ decimals) ∧
    safeBalanceToNumber "1000000000000000000" 18 = 1 ∧
    amountNumIndexTs 1000000000000000001 18 = 1 ∧
    amountNumIndexTs 1000000000000000001 18 ≠ (1000000000000000001 : ℚ) / 10 ^ 18 := by
  have hlog : Nat.log2 1000000000000000001 = 59 := by
    rw [Nat.log2_eq_log_two]
    exact Nat.log_eq_of_pow_le_of_lt_pow (by norm_num) (by norm_num)
  have hdr : doubleRoundNat 1000000000000000001 = 1000000000000000000 := by
    unfold doubleRoundNat
    rw [hlog]
    norm_num
  have hb : amountNumIndexTs 1000000000000000001 18 = 1 := by
    unfold amountNumIndexTs
    rw [hdr]
    norm_num
  refine ⟨safeBalanceValue_eq, ?_, hb, ?_⟩
  · have hp : parseBigInt "1000000000000000000" = some 1000000000000000000 := by
      decide
    unfold safeBalanceToNumber
    rw [hp]
    show safeBalanceValue 1000000000000000000 18 = 1
    rw [safeBalanceValue_eq]
    norm_num
  · rw [hb]
    norm_num

/-- Helper: a token pushed by the variant-B entry processor records the
network it came from and the entry's contract address, and its contract can
only be one the probe did not flag as NFT-typed. -/
theorem processEntryB_contract (probe : ProbeEnv) (oracle : OracleEnv) (net : Network)
    (e : CdpBalanceEntry) (t : Token)
    (h : processEntryB probe oracle net e = some t) :
    t.chain = net.key ∧ t.contractAddress = e.contractAddress ∧
      ∀ c, e.contractAddress = some c → isNftContract probe c net.key = false := by
  unfold processEntryB at h
  by_cases hguard : (match e.contractAddress with
      | some c => isNftContract probe c net.key
      | none => false) = true
  · rw [if_pos hguard] at h
    cases h
  · rw [if_neg hguard] at h
    obtain rfl := Option.some.inj h
    refine ⟨rfl, rfl, fun c hc => ?_⟩
    simp only [hc] at hguard
    simpa using hguard

/-- Helper: the three networks have distinct string identifiers. -/
theorem networkKey_inj {m n : Network} (h : m.key = n.key) : m = n := by
  cases m <;> cases n <;> first
    | rfl
    | exact absurd h (by decide)

/-- C8: calling the `POST /wallet` provisioning handler twice with the same
logical account name returns the same address both times, the second call
does not error, and the custody state is unchanged by the second call — no
second address is ever created for the name. -/
theorem C8_provision_idempotent (st : CustodyState) (name fresh1 fresh2 : String)
    (hname : name ≠ "") :
    ∃ a st1,
      walletHandler true st fresh1 name = (.success ⟨a, name⟩, st1) ∧
      walletHandler true st1 fresh2 name = (.success ⟨a, name⟩, st1) := by
  cases hl : st.lookup name with
  | some a =>
    refine ⟨a, st, ?_, ?_⟩ <;>
      simp [walletHandler, getOrCreateAccount, hname, hl]
  | none =>
    refine ⟨fresh1, (name, fresh1) :: st, ?_, ?_⟩
    · simp [walletHandler, getOrCreateAccount, hname, hl]
    · simp [walletHandler, getOrCreateAccount, hname, List.lookup]

/-- C8 witness: a fresh provisioning of "user-42" followed by a second call
with a different candidate fresh address yields the same address twice. -/
theorem C8_witness :
    ∃ a st1,
      walletHandler true [] "0xabc" "user-42" = (.success ⟨a, "user-42"⟩, st1) ∧
      walletHandler true st1 "0xother" "user-42" = (.success ⟨a, "user-42"⟩, st1) :=
  C8_provision_idempotent [] "user-42" "0xabc" "0xother" (by decide)

/-- C9: whenever the NFT-contract probe cannot complete — missing Alchemy
key, network absent from the probe's endpoint map, non-OK response, or a
thrown request — `isNftContract` returns `false`, and a `false` probe never
excludes an entry from the variant-B balance output. -/
theorem C9_probe_failure_treated_fungible (env : ProbeEnv) (c n : String) :
    (env.alchemyKey = none → isNftContract env c n = false) ∧
    (n ∉ nftApiNetworks → isNftContract env c n = false) ∧
    (env.request n c = .notOk → isNftContract env c n = false) ∧
    (env.request n c = .throw → isNftContract env c n = false) ∧
    (∀ (oracle : OracleEnv) (net : Network) (e : CdpBalanceEntry),
      e.contractAddress = some c → isNftContract env c net.key = false →
      ∃ t, processEntryB env oracle net e = some t) := by
  refine ⟨?_, ?_, ?_, ?_, ?_⟩
  · intro h
    simp [isNftContract, h]
  · intro h
    cases hk : env.alchemyKey with
    | none => simp [isNftContract, hk]
    | some k => simp [isNftContract, hk, h]
  · intro h
    cases hk : env.alchemyKey with
    | none => simp [isNftContract, hk]
    | some k =>
      by_cases hm : n ∈ nftApiNetworks
      · simp [isNftContract, hk, hm, h]
      · simp [isNftContract, hk, hm]
  · intro h
    cases hk : env.alchemyKey with
    | none => simp [isNftContract, hk]
    | some k =>
      by_cases hm : n ∈ nftApiNetworks
      · simp [isNftContract, hk, hm, h]
      · simp [isNftContract, hk, hm]
  · intro oracle net e hc hfalse
    simp [processEntryB, resolveB, hc, hfalse]

/-- C9 witness: with no Alchemy key configured the probe reports `false` for
a contract on base, and an entry holding that contract is still processed
into a token. -/
theorem C9_witness :
    isNftContract ⟨none, fun _ _ => ProbeOutcome.throw⟩ "0xc0ffee" "base" = false ∧
    ∃ t, processEntryB ⟨none, fun _ _ => ProbeOutcome.throw⟩
        ⟨fun _ _ => none, fun _ _ => none, fun _ => 0⟩ Network.base
        ⟨some "TOK", some "Token", some "0xc0ffee", some 5, 18⟩ = some t := by
  refine ⟨(C9_probe_failure_treated_fungible
      ⟨none, fun _ _ => ProbeOutcome.throw⟩ "0xc0ffee" "base").1 rfl, ?_⟩
  exact (C9_probe_failure_treated_fungible
      ⟨none, fun _ _ => ProbeOutcome.throw⟩ "0xc0ffee" "base").2.2.2.2
    ⟨fun _ _ => none, fun _ _ => none, fun _ => 0⟩ Network.base
    ⟨some "TOK", some "Token", some "0xc0ffee", some 5, 18⟩ rfl
    ((C9_probe_failure_treated_fungible
      ⟨none, fun _ _ => ProbeOutcome.throw⟩ "0xc0ffee" "base").1 rfl)

/-- C5: a contract address the probe identifies as NFT-typed is excluded
from the variant-B balances output: the entry is skipped outright, and every
token the endpoint returns carries a contract the probe did not flag on that
token's network. -/
theorem C5_nft_contract_excluded :
    (∀ (probe : ProbeEnv) (oracle : OracleEnv) (net : Network) (e : CdpBalanceEntry)
      (c : String), e.contractAddress = some c → isNftContract probe c net.key = true →
      processEntryB probe oracle net e = none) ∧
    (∀ (env : BalancesEnvB) (name : String) (pl : BalancesPayload),
      getBalancesB env name = ApiResponse.success pl →
      ∀ t ∈ pl.tokens, ∀ c, t.contractAddress = some c →
        ∀ net : Network, net.key = t.chain → isNftContract env.probe c net.key = false) := by
  constructor
  · intro probe oracle net e c hc htrue
    simp [processEntryB, hc, htrue]
  · intro env name pl hres t ht c hc net hkey
    unfold getBalancesB at hres
    split at hres
    · cases hres
    · split at hres
      · cases hres
      · split at hres
        · cases hres
        · cases hres
          obtain ⟨l, hl, htl⟩ := List.mem_flatten.mp ht
          obtain ⟨n, _, rfl⟩ := List.mem_map.mp hl
          unfold networkTokensB at htl
          cases hfetch : env.fetch n with
          | error e0 => rw [hfetch] at htl; cases htl
          | ok entries =>
            rw [hfetch] at htl
            obtain ⟨e, _, hpe⟩ := List.mem_filterMap.mp htl
            obtain ⟨hchain, hca, hnft⟩ := processEntryB_contract _ _ _ _ _ hpe
            have hnn : net = n := networkKey_inj (by rw [hkey, hchain])
            subst hnn
            exact hnft c (hca.symm.trans hc)

/-- C5 witness: an entry whose contract the probe flags (the indexer returns
one NFT for it) is dropped by the entry processor. -/
theorem C5_witness :
    processEntryB ⟨some "key", fun _ _ => ProbeOutcome.ok (some 1)⟩
      ⟨fun _ _ => none, fun _ _ => none, fun _ => 0⟩ Network.base
      ⟨some "NFT", some "SomeNft", some "0xbad", some 1, 0⟩ = none :=
  C5_nft_contract_excluded.1 ⟨some "key", fun _ _ => ProbeOutcome.ok (some 1)⟩
    ⟨fun _ _ => none, fun _ _ => none, fun _ => 0⟩ Network.base
    ⟨some "NFT", some "SomeNft", some "0xbad", some 1, 0⟩ "0xbad" rfl (by decide)

/-- C1 counterexample: in the variant-A handler (src/unnamed/part_000), a
held contract token with nonzero raw balance ("0x5" at contract "0xabc" on
base) for which the primary oracle returns `null` and the secondary yields
no usable price is omitted from the tokens list entirely — the call returns
an empty list, not a token with `usdPrice = 0`. -/
theorem C1_counterexample :
    getBalancesA
      { hasCdpClient := true
        account := .ok "0xme"
        alchemyKey := some "key"
        oracle := ⟨fun _ _ => none, fun _ _ => none, fun _ => 0⟩
        fetch := fun n =>
          match n with
          | .base => .ok 0 (.ok [⟨"0xabc", some "0x5"⟩])
          | .ethereum => .ok 0 (.ok [])
          | .polygon => .ok 0 (.ok []) }
      "user-1"
      = .success ⟨[], 0, "0xme"⟩ := rfl

/-- C1 amended: in the variant-B handler
(src/packages/server/src/api/cdp/index.ts), a held token for which both
price oracles fail still appears in the tokens list with `usdPrice = 0` and
`usdValue = 0` (never NaN, never absent); in the variant-A handler
(src/unnamed/part_000) such a contract token is omitted from the list. -/
theorem C1_amended (probe : ProbeEnv) (oracle : OracleEnv) (net : Network)
    (e : CdpBalanceEntry) (c : String)
    (hc : e.contractAddress = some c)
    (hnft : isNftContract probe c net.key = false)
    (hcg : oracle.getTokenInfo c (platformMap net) = none)
    (hdex : dexTruthyPrice (oracle.getDex c net.key) = none) :
    ∃ t, processEntryB probe oracle net e = some t ∧
      t.usdPrice = 0 ∧ t.usdValue = 0 ∧
      ∀ entries : List CdpBalanceEntry, e ∈ entries →
        t ∈ networkTokensB probe oracle net (.ok entries) := by
  have hpe : processEntryB probe oracle net e = some
      { symbol := jsOrS e.symbol "UNKNOWN"
        name := jsOrS e.name (jsOrS e.symbol "UNKNOWN")
        balance := (e.amount.getD 0 : ℚ) / 10 ^ jsOrNat e.decimals 18
        usdValue := 0
        usdPrice := 0
        contractAddress := e.contractAddress
        chain := net.key
        decimals := jsOrNat e.decimals 18
        icon := none } := by
    simp [processEntryB, resolveB, hc, hnft, hcg, hdex]
  refine ⟨_, hpe, rfl, rfl, ?_⟩
  intro entries he
  simp only [networkTokensB]
  exact List.mem_filterMap.mpr ⟨e, he, hpe⟩

/-- C1 witness: a concrete base-network entry with both oracles failing is
returned with zero price and zero value, and is a member of the network's
token output. -/
theorem C1_witness :
    ∃ t, processEntryB ⟨none, fun _ _ => ProbeOutcome.throw⟩
        ⟨fun _ _ => none, fun _ _ => none, fun _ => 0⟩ Network.base
        ⟨some "ABC", some "AbcCoin", some "0xdef", some 7, 18⟩ = some t ∧
      t.usdPrice = 0 ∧ t.usdValue = 0 ∧
      ∀ entries : List CdpBalanceEntry,
        (⟨some "ABC", some "AbcCoin", some "0xdef", some 7, 18⟩ : CdpBalanceEntry) ∈ entries →
        t ∈ networkTokensB ⟨none, fun _ _ => ProbeOutcome.throw⟩
          ⟨fun _ _ => none, fun _ _ => none, fun _ => 0⟩ Network.base (.ok entries) :=
  C1_amended ⟨none, fun _ _ => ProbeOutcome.throw⟩
    ⟨fun _ _ => none, fun _ _ => none, fun _ => 0⟩ Network.base
    ⟨some "ABC", some "AbcCoin", some "0xdef", some 7, 18⟩ "0xdef" rfl rfl rfl rfl

/-- C3: if one (or more) of the three networks' fetch throws, the variant-A
balance aggregation still succeeds, its token list is the concatenation of
the per-network contributions with the failed network contributing nothing,
and the returned `totalUsdValue` is exactly the sum of the returned tokens'
`usdValue` — i.e. the total over only the successful networks. -/
theorem C3_partial_failure_tolerated (env : BalancesEnvA) (name address key : String)
    (bad : Network)
    (hname : name ≠ "")
    (hclient : env.hasCdpClient = true)
    (hacc : env.account = .ok address)
    (hkey : env.alchemyKey = some key)
    (hbad : env.fetch bad = .fail) :
    ∃ pl, getBalancesA env name = .success pl ∧
      pl.tokens = (allNetworks.map fun n => networkTokensA env.oracle n (env.fetch n)).flatten ∧
      networkTokensA env.oracle bad (env.fetch bad) = [] ∧
      pl.totalUsdValue = (pl.tokens.map Token.usdValue).sum ∧
      pl.address = address := by
  have hres : getBalancesA env name = .success
      ⟨(allNetworks.map fun n => networkTokensA env.oracle n (env.fetch n)).flatten,
       (((allNetworks.map fun n => networkTokensA env.oracle n (env.fetch n)).flatten).map
          Token.usdValue).sum, address⟩ := by
    unfold getBalancesA
    rw [hclient, hacc, hkey]
    simp [hname]
  refine ⟨_, hres, rfl, ?_, rfl, rfl⟩
  rw [hbad]
  rfl

/-- C3 witness: with ethereum's fetch throwing, the call still succeeds and
returns base's native token, with the total equal to that token's value. -/
theorem C3_witness :
    ∃ pl, getBalancesA
        { hasCdpClient := true
          account := .ok "0xme"
          alchemyKey := some "key"
          oracle := ⟨fun _ _ => none, fun _ _ => none, fun _ => 2⟩
          fetch := fun n =>
            match n with
            | .base => .ok 1000000000000000000 (.ok [])
            | .ethereum => .fail
            | .polygon => .ok 0 (.ok []) }
        "user-7" = .success pl ∧
      pl.tokens = ((allNetworks.map fun n =>
        networkTokensA ⟨fun _ _ => none, fun _ _ => none, fun _ => 2⟩ n
          ((fun n =>
            match n with
            | Network.base => NetFetchA.ok 1000000000000000000 (.ok [])
            | Network.ethereum => NetFetchA.fail
            | Network.polygon => NetFetchA.ok 0 (.ok [])) n)).flatten) ∧
      networkTokensA ⟨fun _ _ => none, fun _ _ => none, fun _ => 2⟩ Network.ethereum
        NetFetchA.fail = [] ∧
      pl.totalUsdValue = (pl.tokens.map Token.usdValue).sum ∧
      pl.address = "0xme" :=
  C3_partial_failure_tolerated
    { hasCdpClient := true
      account := .ok "0xme"
      alchemyKey := some "key"
      oracle := ⟨fun _ _ => none, fun _ _ => none, fun _ => 2⟩
      fetch := fun n =>
        match n with
        | .base => .ok 1000000000000000000 (.ok [])
        | .ethereum => .fail
        | .polygon => .ok 0 (.ok []) }
    "user-7" "0xme" "key" Network.ethereum (by decide) rfl rfl rfl rfl

/-- C2 counterexample: on a primary-path failure with a succeeding viem
fallback, the success response reports `method = "viem-fallback"`, not the
literal `"fallback"` the claim states. -/
theorem C2_counterexample :
    sendHandlerA
      { hasCdpClient := true
        primary := .error ()
        fallbackAccount := .ok "0xfrom"
        alchemyKey := some "key"
        viemSendNative := .ok "0xhash"
        viemWriteErc20 := .ok "0xhash2" }
      ⟨"user-42", "base", "0xdead", "eth", "1000000000000000"⟩
      = .success ⟨"0xhash", "0xfrom", "0xdead", "1000000000000000", "eth", "base",
          "viem-fallback"⟩ ∧
    ("viem-fallback" : String) ≠ "fallback" :=
  ⟨rfl, by decide⟩

/-- C2 amended: when the primary custody-service path throws, the handler
attempts the viem local-signing fallback, and when that fallback succeeds
the success response reports `method: "viem-fallback"` (primary successes
report `"cdp-sdk"`), identifying that the fallback path executed. -/
theorem C2_fallback_method (env : SendEnvA) (req : SendRequest) (a h : String)
    (hv : ¬(req.name = "" ∨ req.network = "" ∨ req.toAddress = "" ∨ req.token = ""
      ∨ req.amount = ""))
    (hclient : env.hasCdpClient = true)
    (hprim : env.primary = .error ())
    (hfb : viemFallback env req = .ok (a, h))
    (hh : h ≠ "") :
    sendHandlerA env req
      = .success ⟨h, a, req.toAddress, req.amount, req.token, req.network, "viem-fallback"⟩ := by
  unfold sendHandlerA
  rw [hclient, hprim, hfb]
  simp [hv, hh]

/-- C2 witness: a native transfer on base whose primary path throws succeeds
through the fallback and reports the viem-fallback method. -/
theorem C2_witness :
    sendHandlerA
      { hasCdpClient := true
        primary := .error ()
        fallbackAccount := .ok "0xfrom"
        alchemyKey := some "key"
        viemSendNative := .ok "0xbeef"
        viemWriteErc20 := .ok "0xother" }
      ⟨"user-42", "base", "0xdead", "eth", "1000000000000000"⟩
      = .success ⟨"0xbeef", "0xfrom", "0xdead", "1000000000000000", "eth", "base",
          "viem-fallback"⟩ :=
  C2_fallback_method
    { hasCdpClient := true
      primary := .error ()
      fallbackAccount := .ok "0xfrom"
      alchemyKey := some "key"
      viemSendNative := .ok "0xbeef"
      viemWriteErc20 := .ok "0xother" }
    ⟨"user-42", "base", "0xdead", "eth", "1000000000000000"⟩
    "0xfrom" "0xbeef" (by decide) rfl rfl rfl (by decide)

/-- C6: the send handler returns `SEND_FAILED` only when neither execution
path fully succeeds: a primary path returning a truthy hash yields a success
response with that hash, a fallback completing with a truthy hash after a
primary throw yields a success response with that hash, and any error
response is `SEND_FAILED` with neither the primary having fully succeeded
nor (when the primary threw, i.e. the fallback ran) the fallback having
fully succeeded. -/
theorem C6_send_failed_only_both_paths (env : SendEnvA) (req : SendRequest)
    (hv : ¬(req.name = "" ∨ req.network = "" ∨ req.toAddress = "" ∨ req.token = ""
      ∨ req.amount = ""))
    (hclient : env.hasCdpClient = true) :
    (∀ pr hsh, env.primary = .ok pr → pr.transactionHash = some hsh → hsh ≠ "" →
      sendHandlerA env req
        = .success ⟨hsh, pr.address, req.toAddress, req.amount, req.token, req.network,
            "cdp-sdk"⟩) ∧
    (∀ a hsh, env.primary = .error () → viemFallback env req = .ok (a, hsh) → hsh ≠ "" →
      sendHandlerA env req
        = .success ⟨hsh, a, req.toAddress, req.amount, req.token, req.network,
            "viem-fallback"⟩) ∧
    (∀ st code msg, sendHandlerA env req = .error st code msg →
      code = "SEND_FAILED" ∧ ¬ primarySucceeds env ∧
        (env.primary = .error () → ¬ fallbackSucceeds env req)) := by
  refine ⟨?_, ?_, ?_⟩
  · intro pr hsh hp hth hne
    unfold sendHandlerA
    rw [if_neg hv, hclient]
    simp only [Bool.true_eq_false, if_false, hp, hth]
    rw [if_neg hne]
  · intro a hsh hp hfb hne
    unfold sendHandlerA
    rw [if_neg hv, hclient]
    simp only [Bool.true_eq_false, if_false, hp, hfb]
    rw [if_neg hne]
  · intro st code msg hres
    unfold sendHandlerA at hres
    rw [if_neg hv, hclient] at hres
    simp only [Bool.true_eq_false, if_false] at hres
    cases hp : env.primary with
    | ok pr =>
      simp only [hp] at hres
      have hnp : ¬ primarySucceeds env → code = "SEND_FAILED" ∧ ¬ primarySucceeds env ∧
          (Except.ok pr = Except.error () → ¬ fallbackSucceeds env req) := by
        intro hns
        refine ⟨?_, hns, fun hcontra => Except.noConfusion hcontra⟩
        cases hth : pr.transactionHash with
        | some hsh =>
          simp only [hth] at hres
          by_cases hne : hsh = ""
          · rw [if_pos hne] at hres
            cases hres
            rfl
          · rw [if_neg hne] at hres
            cases hres
        | none =>
          simp only [hth] at hres
          cases hres
          rfl
      apply hnp
      rintro ⟨pr2, h2, hp2, hth2, hne2⟩
      rw [hp] at hp2
      injection hp2 with h4
      subst h4
      cases hth : pr.transactionHash with
      | some hsh =>
        simp only [hth] at hres
        rw [hth] at hth2
        injection hth2 with h5
        by_cases hne : hsh = ""
        · exact hne2 (h5.symm.trans hne)
        · rw [if_neg hne] at hres
          cases hres
      | none =>
        rw [hth] at hth2
        cases hth2
    | error u =>
      simp only [hp] at hres
      cases hfb : viemFallback env req with
      | ok fh =>
        simp only [hfb] at hres
        by_cases hne : fh.2 = ""
        · rw [if_pos hne] at hres
          cases hres
          refine ⟨rfl, ?_, fun _ => ?_⟩
          · rintro ⟨pr2, h2, hp2, _, _⟩
            rw [hp] at hp2
            cases hp2
          · rintro ⟨a2, h2, hfb2, hne2⟩
            rw [hfb] at hfb2
            injection hfb2 with h4
            exact hne2 ((congrArg Prod.snd h4).symm.trans hne)
        · rw [if_neg hne] at hres
          cases hres
      | error u2 =>
        simp only [hfb] at hres
        cases hres
        refine ⟨rfl, ?_, fun _ => ?_⟩
        · rintro ⟨pr2, h2, hp2, _, _⟩
          rw [hp] at hp2
          cases hp2
        · rintro ⟨a2, h2, hfb2, _⟩
          rw [hfb] at hfb2
          cases hfb2

/-- C6 witness: a primary-path success returns the primary's hash with the
cdp-sdk method. -/
theorem C6_witness :
    sendHandlerA
      { hasCdpClient := true
        primary := .ok ⟨"0xme", some "0xprimhash"⟩
        fallbackAccount := .ok "0xme"
        alchemyKey := some "key"
        viemSendNative := .ok "0xfb"
        viemWriteErc20 := .ok "0xfb2" }
      ⟨"user-42", "base", "0xdead", "eth", "12345"⟩
      = .success ⟨"0xprimhash", "0xme", "0xdead", "12345", "eth", "base", "cdp-sdk"⟩ :=
  (C6_send_failed_only_both_paths
    { hasCdpClient := true
      primary := .ok ⟨"0xme", some "0xprimhash"⟩
      fallbackAccount := .ok "0xme"
      alchemyKey := some "key"
      viemSendNative := .ok "0xfb"
      viemWriteErc20 := .ok "0xfb2" }
    ⟨"user-42", "base", "0xdead", "eth", "12345"⟩
    (by decide) rfl).1 ⟨"0xme", some "0xprimhash"⟩ "0xprimhash" rfl rfl (by decide)

/-- C7: the history endpoint returns the union of the per-network transfer
lists merged into a single list whose timestamps are non-increasing (most
recent first): the returned list is sorted under `tsDesc` and is a
permutation of the concatenation of the per-network contributions. -/
theorem C7_history_merged_sorted (env : HistoryEnv) (name address key : String)
    (hname : name ≠ "") (hclient : env.hasCdpClient = true)
    (hkey : env.alchemyKey = some key) (hacc : env.account = .ok address) :
    ∃ pl, getHistory env name = .success pl ∧
      pl.address = address ∧
      List.Sorted tsDesc pl.transactions ∧
      List.Perm pl.transactions ((allNetworks.map (networkTxns env address)).flatten) := by
  have hres : getHistory env name = .success
      ⟨List.insertionSort tsDesc ((allNetworks.map (networkTxns env address)).flatten),
        address⟩ := by
    unfold getHistory
    rw [if_neg hname, hclient]
    simp only [Bool.true_eq_false, if_false, hkey, hacc]
  exact ⟨_, hres, rfl, List.sorted_insertionSort tsDesc _, List.perm_insertionSort tsDesc _⟩

/-- C7 witness: two base transfers (timestamps 100 and 300) and one ethereum
transfer (timestamp 200), with polygon's fetch throwing, merge to one sorted
list that is a permutation of the three records. -/
theorem C7_witness :
    ∃ pl, getHistory
        { hasCdpClient := true
          alchemyKey := some "key"
          account := .ok "0xme"
          now := 0
          indexer := fun n _ =>
            match n with
            | .base => .ok [⟨"0xh1", "0xme", "0xa", none, none, "external", some 100, "0x1"⟩,
                ⟨"0xh2", "0xme", "0xb", none, none, "external", some 300, "0x2"⟩]
            | .ethereum => .ok [⟨"0xh3", "0xme", "0xc", none, none, "external", some 200, "0x3"⟩]
            | .polygon => .error () }
        "user-9" = .success pl ∧
      pl.address = "0xme" ∧
      List.Sorted tsDesc pl.transactions ∧
      List.Perm pl.transactions ((allNetworks.map (networkTxns
        { hasCdpClient := true
          alchemyKey := some "key"
          account := .ok "0xme"
          now := 0
          indexer := fun n _ =>
            match n with
            | .base => .ok [⟨"0xh1", "0xme", "0xa", none, none, "external", some 100, "0x1"⟩,
                ⟨"0xh2", "0xme", "0xb", none, none, "external", some 300, "0x2"⟩]
            | .ethereum => .ok [⟨"0xh3", "0xme", "0xc", none, none, "external", some 200, "0x3"⟩]
            | .polygon => .error () }
        "0xme")).flatten) :=
  C7_history_merged_sorted
    { hasCdpClient := true
      alchemyKey := some "key"
      account := .ok "0xme"
      now := 0
      indexer := fun n _ =>
        match n with
        | .base => .ok [⟨"0xh1", "0xme", "0xa", none, none, "external", some 100, "0x1"⟩,
            ⟨"0xh2", "0xme", "0xb", none, none, "external", some 300, "0x2"⟩]
        | .ethereum => .ok [⟨"0xh3", "0xme", "0xc", none, none, "external", some 200, "0x3"⟩]
        | .polygon => .error () }
    "user-9" "0xme" "key" (by decide) rfl rfl rfl

/-- C10: the history handler queries each network's asset-transfer endpoint
with the resolved wallet address only as `fromAddress` (its params carry no
`toAddress` filter), so — against the spec-modelled indexer, which returns
the transfers matching that filter — every returned record has the wallet's
address as its `from` field, and an incoming transfer (sent to the wallet
from another address) never appears in the returned history. -/
theorem C10_history_outgoing_only (env : HistoryEnv) (name address key : String)
    (ledgers : Network → List RawTransfer)
    (hname : name ≠ "") (hclient : env.hasCdpClient = true)
    (hkey : env.alchemyKey = some key) (hacc : env.account = .ok address)
    (hidx : ∀ n p, env.indexer n p = .ok (alchemyGetAssetTransfers (ledgers n) p)) :
    ∀ pl, getHistory env name = .success pl →
      (∀ t ∈ pl.transactions, t.fromAddress = address) ∧
      (∀ (n : Network) (tx : RawTransfer), tx.toAddress = address →
        tx.fromAddress ≠ address → toTxn n env.now tx ∉ pl.transactions) := by
  intro pl hpl
  have hres : getHistory env name = .success
      ⟨List.insertionSort tsDesc ((allNetworks.map (networkTxns env address)).flatten),
        address⟩ := by
    unfold getHistory
    rw [if_neg hname, hclient]
    simp only [Bool.true_eq_false, if_false, hkey, hacc]
  rw [hres] at hpl
  injection hpl with h1
  subst h1
  have hmem : ∀ t ∈ List.insertionSort tsDesc
      ((allNetworks.map (networkTxns env address)).flatten), t.fromAddress = address := by
    intro t ht
    rw [List.mem_insertionSort] at ht
    obtain ⟨l, hl, htl⟩ := List.mem_flatten.mp ht
    obtain ⟨n, _, rfl⟩ := List.mem_map.mp hl
    unfold networkTxns at htl
    simp only [hidx n (historyParams address)] at htl
    obtain ⟨tx, htx, rfl⟩ := List.mem_map.mp htl
    have htx2 : tx ∈ (ledgers n).filter
        (fun t => decide (t.fromAddress = (historyParams address).fromAddress)) :=
      List.take_subset _ _ htx
    exact of_decide_eq_true (List.mem_filter.mp htx2).2
  refine ⟨fun t ht => hmem t ht, fun _ tx hto hfrom hmemT => hfrom (hmem _ hmemT)⟩

/-- C10 witness: on a ledger holding one outgoing transfer (from the wallet)
and one incoming transfer (to the wallet from another address), the incoming
record never appears in the history the handler returns. -/
theorem C10_witness :
    toTxn Network.base 0 ⟨"0xh2", "0xother", "0xme", none, none, "external", some 200, "0x2"⟩
      ∉ List.insertionSort tsDesc ((allNetworks.map (networkTxns
          { hasCdpClient := true
            alchemyKey := some "key"
            account := .ok "0xme"
            now := 0
            indexer := fun _ p => .ok (alchemyGetAssetTransfers
              ([⟨"0xh1", "0xme", "0xa", none, none, "external", some 100, "0x1"⟩,
                ⟨"0xh2", "0xother", "0xme", none, none, "external", some 200, "0x2"⟩]) p) }
          "0xme")).flatten) :=
  (C10_history_outgoing_only
    { hasCdpClient := true
      alchemyKey := some "key"
      account := .ok "0xme"
      now := 0
      indexer := fun _ p => .ok (alchemyGetAssetTransfers
        ([⟨"0xh1", "0xme", "0xa", none, none, "external", some 100, "0x1"⟩,
          ⟨"0xh2", "0xother", "0xme", none, none, "external", some 200, "0x2"⟩]) p) }
    "user-9" "0xme" "key"
    (fun _ => [⟨"0xh1", "0xme", "0xa", none, none, "external", some 100, "0x1"⟩,
      ⟨"0xh2", "0xother", "0xme", none, none, "external", some 200, "0x2"⟩])
    (by decide) rfl rfl rfl (fun _ _ => rfl)
    ⟨List.insertionSort tsDesc ((allNetworks.map (networkTxns
        { hasCdpClient := true
          alchemyKey := some "key"
          account := .ok "0xme"
          now := 0
          indexer := fun _ p => .ok (alchemyGetAssetTransfers
            ([⟨"0xh1", "0xme", "0xa", none, none, "external", some 100, "0x1"⟩,
              ⟨"0xh2", "0xother", "0xme", none, none, "external", some 200, "0x2"⟩]) p) }
        "0xme")).flatten), "0xme"⟩ rfl).2
    Network.base ⟨"0xh2", "0xother", "0xme", none, none, "external", some 200, "0x2"⟩
    rfl (by decide)

end Otaku
